import Mathlib

/-
Shallow embedding of `src/claudecontrol/server.py` (pwspen/picar): a websocket
robot-control server.  Pure data is modelled directly; the stateful parts
(motor, camera, client registry, frame mailbox) are modelled as explicit state
passing; Python exceptions are modelled with `Except` or explicit outcome
types; `float` second-durations appearing as exact decimal literals in the
source (1, 0.4) are modelled as rationals.
-/

namespace PiCar

/-- Opaque frame payload: a byte sequence (`buf` in `StreamingOutput.write`). -/
abbrev Frame := List Nat

/-- State of `StreamingOutput` (server.py lines 28-34): the single-slot frame
mailbox shared between the camera encoder callback and the video loop.
`frame` starts as `None`, `last_write_time` as 0, `write_count` as 0. -/
structure StreamingOutput where
  frame : Option Frame
  last_write_time : ℚ
  write_count : Nat
deriving DecidableEq

/-- Initial `StreamingOutput.__init__` state. -/
def StreamingOutput.init : StreamingOutput :=
  { frame := none, last_write_time := 0, write_count := 0 }

/-- `StreamingOutput.write(buf)` (lines 36-58): bumps `write_count`, records
the wall-clock write time, and overwrites the single frame slot with `buf`
(`self.frame = buf` under the condition lock, then `notify_all`). -/
def StreamingOutput.write (s : StreamingOutput) (currentTime : ℚ) (buf : Frame) :
    StreamingOutput :=
  { frame := some buf
    last_write_time := currentTime
    write_count := s.write_count + 1 }

/-- A sequence of `write` calls (each a pair of wall-clock time and buffer),
applied in order to the mailbox. -/
def writeSeq (s : StreamingOutput) (ws : List (ℚ × Frame)) : StreamingOutput :=
  ws.foldl (fun st p => st.write p.1 p.2) s

/-- What the video loop observes when it wakes (line 182: `frame =
self.output.frame`). -/
def observeFrame (s : StreamingOutput) : Option Frame :=
  s.frame

/-- A drive vector: the four duty-cycle arguments of
`Motor.setMotorModel(d1, d2, d3, d4)` — left-pair wheels (`d1`, `d2`) and
right-pair wheels (`d3`, `d4`). -/
structure DriveVector where
  d1 : Int
  d2 : Int
  d3 : Int
  d4 : Int
deriving DecidableEq

/-- `setMotorModel(0,0,0,0)` — the stop vector (server.py line 130). -/
def zeroVector : DriveVector := ⟨0, 0, 0, 0⟩

/-- The four recognized movement coroutines of `RobotServer`
(`forward` / `reverse` / `rot_right` / `rot_left`). -/
inductive MoveTask where
  | forward
  | reverse
  | rot_right
  | rot_left
deriving DecidableEq

/-- The drive vector each movement applies (server.py lines 98, 106, 114, 122). -/
def moveVec : MoveTask → DriveVector
  | .forward => ⟨2000, 2000, 2000, 2000⟩
  | .reverse => ⟨-2000, -2000, -2000, -2000⟩
  | .rot_right => ⟨2000, 2000, -2000, -2000⟩
  | .rot_left => ⟨-2000, -2000, 2000, 2000⟩

/-- The hold duration (seconds) passed to `finish` for each movement:
`dur=1` for forward/reverse, `dur=0.4` for the rotations. -/
def moveDur : MoveTask → ℚ
  | .forward => 1
  | .reverse => 1
  | .rot_right => 2/5
  | .rot_left => 2/5

/-- Whether the movement is a translation (forward/reverse) as opposed to a
rotation. -/
def MoveTask.isTranslation : MoveTask → Bool
  | .forward => true
  | .reverse => true
  | .rot_right => false
  | .rot_left => false

/-- One motor-related step taken by a movement coroutine. -/
inductive MotorAction where
  | setModel (v : DriveVector)
  | sleep (dur : ℚ)
deriving DecidableEq

/-- `RobotServer.finish(dur)` (lines 127-132) on the success path:
`await asyncio.sleep(dur)` then `setMotorModel(0,0,0,0)`. -/
def finishTrace (dur : ℚ) : List MotorAction :=
  [.sleep dur, .setModel zeroVector]

/-- The action trace of one movement coroutine on the success path
(lines 95-125): apply the movement's drive vector, then run `finish` with the
movement's duration. -/
def moveTrace (t : MoveTask) : List MotorAction :=
  .setModel (moveVec t) :: finishTrace (moveDur t)

/-- Execution of one movement coroutine against a possibly-failing motor.
`raises v` says the call `setMotorModel(v)` raises an exception.  The result
is the list of attempted `setMotorModel` calls together with whether an error
was logged.  Mirrors the control flow of `forward`/`reverse`/`rot_left`/
`rot_right` (each body is one `try` block: if applying the movement's drive
vector raises, the `except` clause logs and returns, so `finish` is never
reached; otherwise `finish` runs, whose own `try` always attempts the stop
vector and logs if that call raises). -/
def moveRun (raises : DriveVector → Bool) (t : MoveTask) :
    List DriveVector × Bool :=
  if raises (moveVec t) then
    ([moveVec t], true)
  else
    (moveVec t :: [zeroVector], raises zeroVector)

/-- A decoded JSON value (result of a successful `json.loads`).  Numbers are
modelled as rationals; object fields keep their textual order. -/
inductive Json where
  | str (s : String)
  | num (q : ℚ)
  | bool (b : Bool)
  | null
  | arr (xs : List Json)
  | obj (fields : List (String × Json))

/-- Whether the decoded value is a JSON object (a Python `dict`, the only
shape on which `.get` is defined). -/
def Json.isObj : Json → Bool
  | .obj _ => true
  | _ => false

/-- Python `dict.get(k)` on a decoded JSON object: the first binding of `k`,
or `None` when absent. -/
def jsonGet (fields : List (String × Json)) (k : String) : Option Json :=
  (fields.find? fun p => p.1 = k).map Prod.snd

/-- Python `==` between a `dict.get` result and a string literal: true exactly
when the value is present and is that string (`None == s` and
`non-str == s` are `False` in Python). -/
def pyEqStr (v : Option Json) (t : String) : Bool :=
  match v with
  | some (.str s) => s = t
  | _ => false

/-- `handle_command(command)` (lines 221-238), where `command` is
`data.get("command")`: returns the movement task spawned via
`asyncio.create_task` (if any) and whether the unknown-command warning was
logged.  The chain of comparisons mirrors lines 226-235. -/
def handleCommand (command : Option Json) : Option MoveTask × Bool :=
  if pyEqStr command "forward" then (some .forward, false)
  else if pyEqStr command "reverse" then (some .reverse, false)
  else if pyEqStr command "rot_right" then (some .rot_right, false)
  else if pyEqStr command "rot_left" then (some .rot_left, false)
  else (none, true)

/-- Whether `command` is one of the four recognized command strings. -/
def recognizedCommand (command : Option Json) : Bool :=
  pyEqStr command "forward" || pyEqStr command "reverse" ||
    pyEqStr command "rot_right" || pyEqStr command "rot_left"

/-- The `setMotorModel` calls eventually performed by the task (if any) that
`handle_command` spawns: the movement's action trace for a recognized
command, nothing otherwise. -/
def commandMotorCalls (command : Option Json) : List DriveVector :=
  match (handleCommand command).1 with
  | some t => (moveTrace t).filterMap fun a =>
      match a with
      | .setModel v => some v
      | .sleep _ => none
  | none => []

/-- Applying a list of `setMotorModel` calls to the motor state (the motor
holds the last vector applied). -/
def applyMotorCalls (m : DriveVector) (calls : List DriveVector) : DriveVector :=
  calls.foldl (fun _ v => v) m

/-- Outcome of the body of the `async for message in websocket` loop
(lines 253-259) on one inbound message. -/
inductive MsgOutcome where
  | ignoredWithLog
  | ignoredSilently
  | dispatched (command : Option Json)
  | uncaughtError

/-- Whether this outcome leaves the message loop running, so the connection
stays open: an `uncaughtError` escapes the `async for`, is caught by the
outer `except Exception` of `handle_client` (line 263), and the `finally`
block then tears the connection down. -/
def MsgOutcome.connStaysOpen : MsgOutcome → Bool
  | .uncaughtError => false
  | _ => true

/-- One iteration of the inbound-message loop (lines 253-259).  The argument
is the result of `json.loads(message)`: `none` for a `JSONDecodeError`
(logged via `logger.error`, loop continues), `some j` for a decoded value.
On a decoded object, `data.get("type") == "command"` routes to
`handle_command(data.get("command"))`; any other object is passed over with
no log statement.  On a decoded non-object, `data.get` raises
`AttributeError`, which the `except json.JSONDecodeError` clause does not
catch. -/
def processMessage (parsed : Option Json) : MsgOutcome :=
  match parsed with
  | none => .ignoredWithLog
  | some (.obj fields) =>
      if pyEqStr (jsonGet fields "type") "command" then
        .dispatched (jsonGet fields "command")
      else
        .ignoredSilently
  | some _ => .uncaughtError

/-- Whether the `"type"` field of an object decodes to the string
`"command"`. -/
def typeFieldIsCommand (fields : List (String × Json)) : Bool :=
  pyEqStr (jsonGet fields "type") "command"

/-- What happens inside one iteration of the sensor loop body
(lines 140-159): the sensor read and the send can each fail. -/
inductive SensorEvent where
  | readOk (distanceMeters : ℚ)
  | readError
  | sendClosed
  | sendError

/-- Result of one sensor-loop iteration. -/
inductive SensorIterResult where
  | sends (payloadDistanceCm : ℚ)
  | exitsClosed
  | exitsLogged

/-- Whether the iteration leaves the loop running for another pass. -/
def SensorIterResult.continuesLoop : SensorIterResult → Bool
  | .sends _ => true
  | _ => false

/-- One iteration of `send_sensor_data`'s `while` body (lines 139-159).  A
read of `self.sensor.distance` that raises lands in the generic
`except Exception` clause (line 156): the error is logged and the loop
`break`s.  `ConnectionClosed` from the send `break`s with an info log; any
other send error also logs and `break`s.  A successful read sends
`distance * 100` centimeters. -/
def sensorIteration : SensorEvent → SensorIterResult
  | .readOk d => .sends (d * 100)
  | .readError => .exitsLogged
  | .sendClosed => .exitsClosed
  | .sendError => .exitsLogged

/-- State of the process-wide `RobotServer` fields that the embedded
operations touch.  Clients (websockets) are identified by naturals;
`connected_clients` is the Python set, kept as a duplicate-free list;
`recording` is the camera's recording state (`start_recording` /
`stop_recording`). -/
structure ServerState where
  is_running : Bool
  connected_clients : List Nat
  motor : DriveVector
  recording : Bool
  output : StreamingOutput

/-- The fields as `RobotServer.__init__` leaves them (lines 61-93):
`is_running = True`, `connected_clients = set()`, motor idle, camera not
recording, mailbox fresh. -/
def initServer : ServerState :=
  { is_running := true
    connected_clients := []
    motor := zeroVector
    recording := false
    output := .init }

/-- Python `set.add`: insert if absent. -/
def registryAdd (clients : List Nat) (c : Nat) : List Nat :=
  if c ∈ clients then clients else c :: clients

/-- Python `set.remove`: remove the element, raising `KeyError` when it is
absent. -/
def registryRemove (clients : List Nat) (c : Nat) : Except Unit (List Nat) :=
  if c ∈ clients then .ok (clients.erase c) else .error ()

/-- The `finally` block of `handle_client` (lines 266-275):
`connected_clients.remove(websocket)` first — if that raises `KeyError` the
rest of the block is skipped — then `sensor_task.cancel()`,
`video_task.cancel()` and the `gather`, during which the cancelled video
task's own `finally` runs `camera.stop_recording()`. -/
def teardown (s : ServerState) (c : Nat) : Except Unit ServerState :=
  match registryRemove s.connected_clients c with
  | .error e => .error e
  | .ok clients => .ok { s with connected_clients := clients, recording := false }

/-- Camera operations issued by `send_video_feed`. -/
inductive CamOp where
  | startRec
  | stopRec
deriving DecidableEq

/-- How the body of `send_video_feed` ends: the `while` condition turning
false, an exception reaching the outer `except` (line 211), or cancellation
of the task by teardown. -/
inductive VideoExitCause where
  | loopCondFalse
  | fatalError
  | cancelled

/-- The camera operations `send_video_feed` performs on each exit path
(lines 168-219): `start_recording` in the `try`, and `stop_recording` in the
`finally`, which runs on normal exit, on exception, and on cancellation
alike. -/
def videoCamOps (_ : VideoExitCause) : List CamOp :=
  [.startRec, .stopRec]

/-- Applying camera operations to the recording flag. -/
def applyCamOps (recording : Bool) (ops : List CamOp) : Bool :=
  ops.foldl (fun _ op => match op with | .startRec => true | .stopRec => false)
    recording

/-- The operations of the program that touch `ServerState`.  None of them
ever writes `is_running`. -/
inductive SOp where
  | clientConnect (c : Nat)
  | clientTeardown (c : Nat)
  | dispatch (command : Option Json)
  | motorSet (v : DriveVector)
  | camStart
  | camStop
  | frameWrite (t : ℚ) (buf : Frame)

/-- Effect of each operation on the server fields: `handle_client` adds /
removes registry entries (line 245 and the `finally` block), movement
coroutines call `setMotorModel`, `send_video_feed` starts and stops the
camera, the encoder callback writes the frame mailbox, and
`handle_command` itself only spawns a task and writes no field. -/
def applyOp (s : ServerState) : SOp → ServerState
  | .clientConnect c =>
      { s with connected_clients := registryAdd s.connected_clients c }
  | .clientTeardown c =>
      match teardown s c with
      | .ok s2 => s2
      | .error _ => s
  | .dispatch _ => s
  | .motorSet v => { s with motor := v }
  | .camStart => { s with recording := true }
  | .camStop => { s with recording := false }
  | .frameWrite t buf => { s with output := s.output.write t buf }

/-- A server state reachable from `__init__` by program operations. -/
def Reachable (s : ServerState) : Prop :=
  ∃ ops : List SOp, s = ops.foldl applyOp initServer

/-- The guard of both telemetry loops (lines 139 and 174):
`while self.is_running and websocket in self.connected_clients`. -/
def loopGate (s : ServerState) (c : Nat) : Bool :=
  s.is_running && s.connected_clients.contains c

/-- An outbound message: the complete serialized payload handed to one
`await websocket.send(json.dumps(...))` call — a sensor reading (line 142) or
a video frame (line 194).  The byte content is opaque. -/
inductive OutMsg where
  | sensor (bytes : List Nat)
  | video (bytes : List Nat)
deriving DecidableEq

/-- The serialized bytes of one message as the transport frames it: a tag,
the payload length, then the payload.  Each `send` call hands the transport
this whole sequence at once (a single websocket message). -/
def encodeMsg : OutMsg → List Nat
  | .sensor bytes => 0 :: bytes.length :: bytes
  | .video bytes => 1 :: bytes.length :: bytes

/-- The byte stream a sequence of atomic `send` calls produces on the wire. -/
def wireBytes : List OutMsg → List Nat
  | [] => []
  | m :: ms => encodeMsg m ++ wireBytes ms

/-- `Merge ss vs ms`: `ms` is one cooperative-scheduling interleaving of the
sensor loop's sends `ss` and the video loop's sends `vs`.  Each constructor
is one whole `await websocket.send(...)` step: under asyncio a task runs
without preemption between awaits, and each send hands the transport one
complete message, so a scheduling step contributes a whole message, never a
byte-level fragment. -/
inductive Merge : List OutMsg → List OutMsg → List OutMsg → Prop where
  | nil : Merge [] [] []
  | sensorStep {x : OutMsg} {a b c : List OutMsg} :
      Merge a b c → Merge (x :: a) b (x :: c)
  | videoStep {y : OutMsg} {a b c : List OutMsg} :
      Merge a b c → Merge a (y :: b) (y :: c)

/-- A concrete server state with one registered client (id 7) and the camera
recording, as during an active session. -/
def sessionState : ServerState :=
  { is_running := true
    connected_clients := [7]
    motor := zeroVector
    recording := true
    output := .init }

theorem writeSeq_nil (s : StreamingOutput) : writeSeq s [] = s := rfl

theorem writeSeq_cons (s : StreamingOutput) (p : ℚ × Frame) (ws : List (ℚ × Frame)) :
    writeSeq s (p :: ws) = writeSeq (s.write p.1 p.2) ws := rfl

/-- The frame slot after a sequence of writes holds exactly the last written
buffer (or the previous content when no write happened). -/
theorem writeSeq_frame (ws : List (ℚ × Frame)) : ∀ s : StreamingOutput,
    (writeSeq s ws).frame =
      ((ws.getLast?.map fun p => some p.2).getD s.frame) := by
  induction ws with
  | nil => intro s; rfl
  | cons p tail ih =>
      intro s
      rw [writeSeq_cons, ih]
      cases tail with
      | nil => rfl
      | cons q tail2 => simp [List.getLast?]

theorem wireBytes_append (l1 l2 : List OutMsg) :
    wireBytes (l1 ++ l2) = wireBytes l1 ++ wireBytes l2 := by
  induction l1 with
  | nil => rfl
  | cons m ms ih => simp [wireBytes, ih]

theorem Merge.sublist_left {a b c : List OutMsg} (h : Merge a b c) :
    a.Sublist c := by
  induction h with
  | nil => exact List.Sublist.refl []
  | sensorStep _ ih => exact ih.cons₂ _
  | videoStep _ ih => exact ih.cons _

theorem Merge.sublist_right {a b c : List OutMsg} (h : Merge a b c) :
    b.Sublist c := by
  induction h with
  | nil => exact List.Sublist.refl []
  | sensorStep _ ih => exact ih.cons _
  | videoStep _ ih => exact ih.cons₂ _

/-- C1, counterexample: with a motor whose `setMotorModel` raises exactly on
the forward drive vector, the `forward` coroutine logs the error but never
attempts the stop vector — the `except` clause is entered before `finish`
is reached, refuting the claim that the stop call is made on every failure
path. -/
theorem c1_counterexample :
    (moveRun (fun v => decide (v = moveVec .forward)) .forward).2 = true ∧
    zeroVector ∉ (moveRun (fun v => decide (v = moveVec .forward)) .forward).1 := by
  decide

/-- C1, amended: if applying a movement's drive vector raises, the error is
logged, but the stop vector is not attempted on that failure path (the
movement body's `except` clause returns before `finish` runs). -/
theorem c1_amended (t : MoveTask) (raises : DriveVector → Bool)
    (h : raises (moveVec t) = true) :
    (moveRun raises t).2 = true ∧ zeroVector ∉ (moveRun raises t).1 := by
  have hne : zeroVector ≠ moveVec t := by cases t <;> decide
  simp [moveRun, h, hne]

/-- C1, witness for the amended theorem at the forward command with an
always-raising motor. -/
theorem c1_witness :
    ((fun _ : DriveVector => true) (moveVec .forward) = true) ∧
    ((moveRun (fun _ => true) .forward).2 = true ∧
      zeroVector ∉ (moveRun (fun _ => true) .forward).1) :=
  ⟨rfl, c1_amended .forward (fun _ => true) rfl⟩

/-- C2: after any non-empty sequence of `StreamingOutput.write` calls, the
single-slot mailbox holds exactly the last written frame, which is what the
video loop observes on its next wake — latest wins, nothing queues. -/
theorem c2_latest_frame_wins (s : StreamingOutput) (ws : List (ℚ × Frame))
    (h : ws ≠ []) :
    observeFrame (writeSeq s ws) = some ((ws.getLast h).2) := by
  rw [observeFrame, writeSeq_frame, List.getLast?_eq_getLast ws h]
  rfl

/-- C2, witness: writing frames `[1]`, `[2]`, `[3]` before one wake leaves
only `[3]` to observe. -/
theorem c2_witness :
    (([((1:ℚ), ([1] : Frame)), (2, [2]), (3, [3])] : List (ℚ × Frame)) ≠ []) ∧
    observeFrame
        (writeSeq .init [((1:ℚ), ([1] : Frame)), (2, [2]), (3, [3])]) =
      some [3] := by
  refine ⟨by simp, ?_⟩
  have hlist : (([((1:ℚ), ([1] : Frame)), (2, [2]), (3, [3])] :
      List (ℚ × Frame)) ≠ []) := by simp
  exact (c2_latest_frame_wins .init _ hlist).trans rfl

/-- C3, counterexample: a raising sensor read lands in the sensor loop's
generic `except` clause, which `break`s — the loop does not continue
iterating. -/
theorem c3_counterexample :
    (sensorIteration .readError).continuesLoop = false := rfl

/-- C3, amended: a sensor read failure is logged and makes the sensor loop
exit (the `except Exception` clause ends in `break`); the session itself is
not torn down by this — the sensor loop performs no registry operation,
teardown being driven solely by `handle_client`. -/
theorem c3_amended :
    sensorIteration .readError = .exitsLogged ∧
    (sensorIteration .readError).continuesLoop = false :=
  ⟨rfl, rfl⟩

/-- C4, counterexample: the message `[]` is well-formed JSON of a
non-command structure, yet processing it raises an uncaught `AttributeError`
(`list.get` does not exist), which escapes the `except json.JSONDecodeError`
clause and closes the connection — refuting "the connection stays open" for
every non-command-shaped payload. -/
theorem c4_counterexample :
    (processMessage (some (.arr []))).connStaysOpen = false := rfl

/-- C4, amended: an unparseable payload is logged and ignored with the
connection open; a well-formed JSON object without the command shape is
ignored silently (no warning is logged) with the connection open; well-formed
non-object JSON raises an uncaught error that terminates the message loop
and closes the connection. -/
theorem c4_amended :
    (processMessage none = .ignoredWithLog ∧
      (processMessage none).connStaysOpen = true) ∧
    (∀ fields : List (String × Json), typeFieldIsCommand fields = false →
      processMessage (some (.obj fields)) = .ignoredSilently ∧
      (processMessage (some (.obj fields))).connStaysOpen = true) ∧
    (∀ j : Json, j.isObj = false →
      processMessage (some j) = .uncaughtError ∧
      (processMessage (some j)).connStaysOpen = false) := by
  refine ⟨⟨rfl, rfl⟩, ?_, ?_⟩
  · intro fields h
    have h2 : pyEqStr (jsonGet fields "type") "command" = false := h
    simp [processMessage, h2, MsgOutcome.connStaysOpen]
  · intro j h
    cases j <;> simp_all [processMessage, Json.isObj, MsgOutcome.connStaysOpen]

/-- C4, witness for the amended theorem at the decoded JSON array `[]`. -/
theorem c4_witness :
    Json.isObj (.arr []) = false ∧
    (processMessage (some (.arr [])) = .uncaughtError ∧
      (processMessage (some (.arr []))).connStaysOpen = false) :=
  ⟨rfl, c4_amended.2.2 (.arr []) rfl⟩

/-- C5, counterexample: tearing the same session down twice raises — the
second `connected_clients.remove` is a Python `set.remove` on an absent
element, a `KeyError` — refuting "no error". -/
theorem c5_counterexample :
    ((teardown sessionState 7).bind fun s2 => teardown s2 7) = .error () := by
  simp [teardown, registryRemove, sessionState, Except.bind]

/-- C5, amended: the first teardown succeeds and deregisters the session;
repeating teardown on the already-torn-down session raises a `KeyError` from
`connected_clients.remove` (and the `finally` block's remaining cleanup is
skipped) — duplicate deregistration cannot happen, but not error-free: the
teardown sequence is not idempotent. -/
theorem c5_amended (s : ServerState) (c : Nat)
    (hmem : c ∈ s.connected_clients) (hnd : s.connected_clients.Nodup) :
    ∃ s2, teardown s c = .ok s2 ∧ c ∉ s2.connected_clients ∧
      teardown s2 c = .error () := by
  have hni : c ∉ s.connected_clients.erase c := fun hin =>
    ((List.Nodup.mem_erase_iff hnd).1 hin).1 rfl
  refine ⟨{ s with connected_clients := s.connected_clients.erase c, recording := false }, ?_, hni, ?_⟩
  · simp [teardown, registryRemove, hmem]
  · simp [teardown, registryRemove, hni]

/-- C5, witness for the amended theorem on a state with registered client 7. -/
theorem c5_witness :
    (7 ∈ sessionState.connected_clients ∧ sessionState.connected_clients.Nodup) ∧
    ∃ s2, teardown sessionState 7 = .ok s2 ∧ 7 ∉ s2.connected_clients ∧
      teardown s2 7 = .error () :=
  ⟨⟨by simp [sessionState], by simp [sessionState]⟩,
    c5_amended sessionState 7 (by simp [sessionState]) (by simp [sessionState])⟩

/-- C6: each recognized command applies its fixed drive vector
(forward/reverse: equal power on all four wheels, positive resp. negative;
rotations: opposite-sign power on the left pair and the right pair), holds it
for its fixed duration, then applies the zero vector; every duration lies in
[0.4 s, 1.3 s] and the translation durations (1 s) strictly exceed the
rotation durations (0.4 s). -/
theorem c6_dispatch_fixed_vectors :
    moveTrace .forward =
      [.setModel ⟨2000, 2000, 2000, 2000⟩, .sleep 1, .setModel zeroVector] ∧
    moveTrace .reverse =
      [.setModel ⟨-2000, -2000, -2000, -2000⟩, .sleep 1, .setModel zeroVector] ∧
    moveTrace .rot_right =
      [.setModel ⟨2000, 2000, -2000, -2000⟩, .sleep (2/5),
        .setModel zeroVector] ∧
    moveTrace .rot_left =
      [.setModel ⟨-2000, -2000, 2000, 2000⟩, .sleep (2/5),
        .setModel zeroVector] ∧
    zeroVector = ⟨0, 0, 0, 0⟩ ∧
    (∀ t : MoveTask, (2:ℚ)/5 ≤ moveDur t ∧ moveDur t ≤ 13/10) ∧
    moveDur .rot_right < moveDur .forward ∧
    moveDur .rot_right < moveDur .reverse ∧
    moveDur .rot_left < moveDur .forward ∧
    moveDur .rot_left < moveDur .reverse := by
  refine ⟨rfl, rfl, rfl, rfl, rfl, ?_, ?_, ?_, ?_, ?_⟩
  · intro t
    cases t <;> constructor <;> norm_num [moveDur]
  all_goals norm_num [moveDur]

/-- C8, helper: the message loop never errors on a decoded JSON object
payload, so the connection survives it. -/
theorem processMessage_obj_staysOpen (fields : List (String × Json)) :
    (processMessage (some (.obj fields))).connStaysOpen = true := by
  cases hb : pyEqStr (jsonGet fields "type") "command" <;>
    simp [processMessage, hb, MsgOutcome.connStaysOpen]

/-- C7: a (first) teardown deregisters the session and leaves the camera not
recording, and the video loop's `finally` clause issues the camera stop on
every exit path — normal loop exit, fatal error and task cancellation
alike. -/
theorem c7_teardown_invariant (s : ServerState) (c : Nat)
    (hmem : c ∈ s.connected_clients) (hnd : s.connected_clients.Nodup) :
    (∃ s2, teardown s c = .ok s2 ∧ c ∉ s2.connected_clients ∧
      s2.recording = false) ∧
    (∀ cause : VideoExitCause, CamOp.stopRec ∈ videoCamOps cause ∧
      ∀ r : Bool, applyCamOps r (videoCamOps cause) = false) := by
  constructor
  · have hni : c ∉ s.connected_clients.erase c := fun hin =>
      ((List.Nodup.mem_erase_iff hnd).1 hin).1 rfl
    refine ⟨{ s with connected_clients := s.connected_clients.erase c, recording := false }, ?_, hni, rfl⟩
    simp [teardown, registryRemove, hmem]
  · intro cause
    exact ⟨by simp [videoCamOps], fun r => rfl⟩

/-- C7, witness on a state with registered client 7 and a recording camera. -/
theorem c7_witness :
    (7 ∈ sessionState.connected_clients ∧
      sessionState.connected_clients.Nodup) ∧
    ∃ s2, teardown sessionState 7 = .ok s2 ∧ 7 ∉ s2.connected_clients ∧
      s2.recording = false :=
  ⟨⟨by simp [sessionState], by simp [sessionState]⟩,
    (c7_teardown_invariant sessionState 7 (by simp [sessionState])
      (by simp [sessionState])).1⟩

/-- C8: an unrecognized command string spawns no movement task, logs the
unknown-command warning, causes no `setMotorModel` call (leaving the motor
state unchanged), and the message loop survives any object-shaped payload,
so the connection stays open. -/
theorem c8_unknown_command (command : Option Json)
    (h : recognizedCommand command = false) :
    (handleCommand command).1 = none ∧ (handleCommand command).2 = true ∧
    commandMotorCalls command = [] ∧
    (∀ m : DriveVector, applyMotorCalls m (commandMotorCalls command) = m) ∧
    (∀ fields : List (String × Json),
      (processMessage (some (.obj fields))).connStaysOpen = true) := by
  have hco : handleCommand command = (none, true) := by
    rw [recognizedCommand, Bool.or_eq_false_iff, Bool.or_eq_false_iff,
      Bool.or_eq_false_iff] at h
    obtain ⟨⟨⟨hf, hr⟩, hrr⟩, hrl⟩ := h
    simp [handleCommand, hf, hr, hrr, hrl]
  refine ⟨by rw [hco], by rw [hco], ?_, ?_, processMessage_obj_staysOpen⟩
  · simp [commandMotorCalls, hco]
  · intro m
    simp [applyMotorCalls, commandMotorCalls, hco]

/-- C8, witness at the unrecognized command string "fly". -/
theorem c8_witness :
    recognizedCommand (some (.str "fly")) = false ∧
    commandMotorCalls (some (.str "fly")) = [] ∧
    (handleCommand (some (.str "fly"))).2 = true :=
  ⟨rfl, (c8_unknown_command (some (.str "fly")) rfl).2.2.1,
    (c8_unknown_command (some (.str "fly")) rfl).2.1⟩

/-- C9: under any cooperative interleaving of the sensor and video loops'
atomic `send` steps, the wire byte stream is the concatenation of whole
encoded messages — each message occupies one contiguous segment (delivered
whole or not at all), and each loop's own messages appear on the wire in its
send order. -/
theorem c9_whole_messages (ss vs ms : List OutMsg) (h : Merge ss vs ms)
    (i : Nat) (hi : i < ms.length) :
    (wireBytes ms =
      wireBytes (ms.take i) ++ encodeMsg (ms.get ⟨i, hi⟩) ++
        wireBytes (ms.drop (i + 1))) ∧
    ss.Sublist ms ∧ vs.Sublist ms := by
  refine ⟨?_, h.sublist_left, h.sublist_right⟩
  conv_lhs => rw [← List.take_append_drop i ms]
  rw [wireBytes_append, List.drop_eq_getElem_cons hi]
  simp [wireBytes, List.append_assoc]

/-- C9, witness: one sensor send interleaved before one video send. -/
theorem c9_witness :
    Merge [OutMsg.sensor [5]] [OutMsg.video [9]]
      [OutMsg.sensor [5], OutMsg.video [9]] ∧
    wireBytes [OutMsg.sensor [5], OutMsg.video [9]] =
      wireBytes ([OutMsg.sensor [5], OutMsg.video [9]].take 1) ++
        encodeMsg (([OutMsg.sensor [5], OutMsg.video [9]]).get ⟨1, by decide⟩) ++
        wireBytes ([OutMsg.sensor [5], OutMsg.video [9]].drop 2) := by
  have hm : Merge [OutMsg.sensor [5]] [OutMsg.video [9]]
      [OutMsg.sensor [5], OutMsg.video [9]] :=
    .sensorStep (.videoStep .nil)
  exact ⟨hm, (c9_whole_messages _ _ _ hm 1 (by decide)).1⟩

/-- C10, helper: no single program operation writes `is_running`. -/
theorem teardown_is_running {s s2 : ServerState} {c : Nat}
    (h : teardown s c = .ok s2) : s2.is_running = s.is_running := by
  by_cases hc : c ∈ s.connected_clients
  · simp [teardown, registryRemove, hc] at h
    rw [← h]
  · simp [teardown, registryRemove, hc] at h

/-- C10, helper: every operation preserves the liveness flag. -/
theorem applyOp_is_running (s : ServerState) (op : SOp) :
    (applyOp s op).is_running = s.is_running := by
  cases op with
  | clientTeardown c =>
      simp only [applyOp]
      cases h : teardown s c with
      | ok s2 => exact teardown_is_running h
      | error e => rfl
  | clientConnect c => rfl
  | dispatch command => rfl
  | motorSet v => rfl
  | camStart => rfl
  | camStop => rfl
  | frameWrite t buf => rfl

/-- C10, helper: operation sequences preserve the liveness flag. -/
theorem foldl_is_running (ops : List SOp) : ∀ s : ServerState,
    (ops.foldl applyOp s).is_running = s.is_running := by
  induction ops with
  | nil => intro s; rfl
  | cons op tail ih =>
      intro s
      rw [List.foldl_cons, ih, applyOp_is_running]

/-- C10: `is_running` is set to `True` at construction, no operation ever
writes it, so every reachable state has `is_running = True` and the
telemetry-loop guard degenerates to registry membership — the loops can only
stop through deregistration or a send/loop failure, never through the
`is_running` gate. -/
theorem c10_is_running_invariant :
    (∀ (s : ServerState) (op : SOp),
      (applyOp s op).is_running = s.is_running) ∧
    initServer.is_running = true ∧
    (∀ s : ServerState, Reachable s → s.is_running = true ∧
      ∀ c : Nat, loopGate s c = s.connected_clients.contains c) := by
  refine ⟨applyOp_is_running, rfl, ?_⟩
  rintro s ⟨ops, rfl⟩
  have hr : (List.foldl applyOp initServer ops).is_running = true :=
    foldl_is_running ops initServer
  exact ⟨hr, fun c => by simp [loopGate, hr]⟩

/-- C10, witness: the freshly constructed server is reachable and running. -/
theorem c10_witness :
    Reachable initServer ∧ initServer.is_running = true :=
  ⟨⟨[], rfl⟩, (c10_is_running_invariant.2.2 initServer ⟨[], rfl⟩).1⟩

end PiCar
